import Mathlib

/-!
Shallow embedding of the Simulate-attacks frontend state layer:
the app-state reducer, the stream backoff computation, the
error-recovery guardrails (graph-size limits, circuit breaker), the
cypher-result highlight extraction, the retry-hardened stream wrapper
and the graph uploader parsing flow, together with theorems about them.
-/

/-- A JavaScript-like dynamic value, used wherever the TypeScript source
manipulates `any` / `unknown` payloads. -/
inductive JVal where
  | null
  | bool (b : Bool)
  | num (n : Int)
  | str (s : String)
  | arr (elems : List JVal)
  | obj (fields : List (String × JVal))

mutual

/-- JavaScript String(...) coercion, restricted to the values of `JVal`. -/
def jsToString : JVal → String
  | .null => "null"
  | .bool b => cond b "true" "false"
  | .num n => toString n
  | .str s => s
  | .arr l => String.intercalate "," (jsToStringList l)
  | .obj _ => "[object Object]"

/-- String coercion of each element of a list of values. -/
def jsToStringList : List JVal → List String
  | [] => []
  | v :: vs => jsToString v :: jsToStringList vs

end

/-- Property access `v[k]` on a dynamic value: a field lookup on objects,
`undefined` (`none`) on everything else. -/
def jsField : JVal → String → Option JVal
  | .obj fields, k => fields.lookup k
  | _, _ => none

/-- JavaScript truthiness of a possibly-undefined value: `undefined`,
`null`, `false`, `0` and `""` are falsy, everything else (including
empty arrays and objects) is truthy. -/
def jsTruthy : Option JVal → Bool
  | none => false
  | some .null => false
  | some (.bool b) => b
  | some (.num n) => n != 0
  | some (.str s) => s != ""
  | some (.arr _) => true
  | some (.obj _) => true

/-- GraphNode from src/unnamed/part_003. -/
structure GraphNode where
  id : String
  labels : List String
  attrs : List (String × JVal)

/-- GraphEdge from src/unnamed/part_003. -/
structure GraphEdge where
  id : String
  source : String
  target : String
  type : String
  attrs : List (String × JVal)

/-- GraphPayload from src/unnamed/part_003. -/
structure GraphPayload where
  version : String
  metadata : List (String × JVal)
  nodes : List GraphNode
  edges : List GraphEdge

/-- CypherResult from src/unnamed/part_003; `records` is carried as an
optional list because `extractCypherNodeIds` treats the value
dynamically (`result?.records`). Each record is a string-keyed map of
dynamic values. -/
structure CypherResult where
  records : Option (List (List (String × JVal)))
  summary : Option JVal

/-- ScenarioRunStatus from src/unnamed/part_003. -/
structure ScenarioRunStatus where
  jobId : String
  status : String
  startedAt : Option String
  completedAt : Option String
  details : Option String

/-- Log levels from src/unnamed/part_005 (`"debug" | "info" | "warn" | "error"`). -/
inductive LogLevel where
  | debug
  | info
  | warn
  | error
deriving DecidableEq

/-- Chat roles from src/unnamed/part_005 (`"user" | "assistant" | "system"`). -/
inductive ChatRole where
  | user
  | assistant
  | system
deriving DecidableEq

/-- ConnectionState from src/frontend/types/events.ts. The constructor
for the `"open"` literal is written `open_` because `open` is a Lean
keyword. -/
inductive ConnectionState where
  | idle
  | connecting
  | open_
  | retrying
  | closed
  | error
deriving DecidableEq

/-- LogEntry from src/unnamed/part_005. -/
structure LogEntry where
  id : String
  message : String
  createdAt : String
  level : Option LogLevel

/-- ChatMessage from src/unnamed/part_005. -/
structure ChatMessage where
  id : String
  role : ChatRole
  content : String
  createdAt : String

/-- The payload of `LOG_ENTRY_ADDED`: `Omit<LogEntry, "id"> & { id?: string }`. -/
structure LogEntryPayload where
  id : Option String
  message : String
  createdAt : String
  level : Option LogLevel

/-- AgentEvent from src/frontend/types/events.ts, with the payload kept
dynamic just as the dispatch layer receives it. -/
structure AgentEvent where
  id : String
  type : String
  createdAt : String
  payload : Option JVal
  level : Option LogLevel
  source : Option String

/-- AppState from src/unnamed/part_005. -/
structure AppState where
  graphData : Option GraphPayload
  highlightedNodes : List String
  scenarioStatus : Option ScenarioRunStatus
  scenarioResults : Option JVal
  cypherResult : Option CypherResult
  logEntries : List LogEntry
  chatMessages : List ChatMessage
  isWaitingForAgent : Bool
  connectionStatus : ConnectionState

/-- AppAction from src/unnamed/part_005. -/
inductive AppAction where
  | graphLoaded (payload : GraphPayload)
  | graphReplaced (payload : GraphPayload)
  | nodesHighlighted (payload : List String)
  | scenarioStatusUpdated (payload : ScenarioRunStatus)
  | scenarioResultsSet (payload : Option JVal)
  | cypherResultSet (payload : CypherResult)
  | logEntryAdded (payload : LogEntryPayload)
  | chatMessageAdded (payload : ChatMessage)
  | agentWaitingSet (payload : Bool)
  | connectionStatusChanged (payload : ConnectionState)
  | agentEventReceived (payload : AgentEvent)

def MAX_LOG_ENTRIES : Nat := 80

def MAX_CHAT_MESSAGES : Nat := 120

/-- JavaScript `list.slice(-n)`: the suffix of the last `n` elements
(the whole list when it is shorter than `n`). -/
def takeLast (n : Nat) (l : List α) : List α := l.drop (l.length - n)

/-- The log entry built by the `LOG_ENTRY_ADDED` branch:
`{ id: action.payload.id ?? generateId(), ...action.payload }`. The
random id produced by `generateId()` is passed in as the oracle
argument `genId`. -/
def mkLogEntry (payload : LogEntryPayload) (genId : String) : LogEntry :=
  { id := payload.id.getD genId
    message := payload.message
    createdAt := payload.createdAt
    level := payload.level }

/-- appReducer from src/unnamed/part_005, with `generateId()` passed in
as the oracle argument `genId`. -/
def appReducer (genId : String) (state : AppState) (action : AppAction) : AppState :=
  match action with
  | .graphLoaded payload | .graphReplaced payload =>
      { state with
        graphData := some payload
        highlightedNodes := []
        scenarioResults := none
        scenarioStatus := none }
  | .nodesHighlighted payload =>
      { state with highlightedNodes := payload }
  | .scenarioStatusUpdated payload =>
      { state with scenarioStatus := some payload }
  | .scenarioResultsSet payload =>
      { state with scenarioResults := payload }
  | .cypherResultSet payload =>
      { state with cypherResult := some payload }
  | .logEntryAdded payload =>
      { state with
        logEntries := (mkLogEntry payload genId :: state.logEntries).take MAX_LOG_ENTRIES }
  | .chatMessageAdded payload =>
      if state.chatMessages.any (fun msg => msg.id == payload.id) then state
      else
        { state with
          chatMessages := takeLast MAX_CHAT_MESSAGES (state.chatMessages ++ [payload]) }
  | .agentWaitingSet payload =>
      { state with isWaitingForAgent := payload }
  | .connectionStatusChanged payload =>
      { state with connectionStatus := payload }
  | .agentEventReceived _ => state

/-- initialAppState from src/unnamed/part_005. -/
def initialAppState : AppState :=
  { graphData := none
    highlightedNodes := []
    scenarioStatus := none
    scenarioResults := none
    cypherResult := none
    logEntries := []
    chatMessages := []
    isWaitingForAgent := false
    connectionStatus := .idle }

/-- BACKOFF_BASE_MS from src/unnamed/part_009 (the streaming hook). -/
def BACKOFF_BASE_MS : ℚ := 1000

/-- BACKOFF_MAX_MS from src/unnamed/part_009 (the streaming hook). -/
def BACKOFF_MAX_MS : ℚ := 15000

/-- computeBackoff from src/unnamed/part_009. `Math.random() * 0.4 + 0.8`
is passed in as the oracle argument `jitter`; the arithmetic is carried
out over the rationals. -/
def computeBackoff (attempt : Nat) (jitter : ℚ) : ℚ :=
  min (BACKOFF_BASE_MS * 2 ^ (min attempt 8) * jitter) BACKOFF_MAX_MS

/-- validateGraphData from src/unnamed/part_008, specialised to
well-typed `GraphPayload` values: on those, the dynamic checks
(`Array.isArray`, `typeof === "string"`) always pass and the JS
falsiness tests `!node.id` etc. reduce to emptiness tests on the
strings. -/
def validateGraphData (data : GraphPayload) : Bool :=
  data.nodes.all (fun node => node.id != "") &&
    data.edges.all (fun edge =>
      edge.id != "" && edge.source != "" && edge.target != "" && edge.type != "")

def MAX_NODES : Nat := 10000

def MAX_EDGES : Nat := 50000

def WARN_NODES : Nat := 1000

def WARN_EDGES : Nat := 5000

/-- The result record of `checkGraphLimits`. -/
structure LimitsResult where
  valid : Bool
  warnings : List String
  errors : List String

/-- checkGraphLimits from src/unnamed/part_008. -/
def checkGraphLimits (data : GraphPayload) : LimitsResult :=
  if validateGraphData data = false then
    { valid := false, warnings := [], errors := ["Invalid graph data format"] }
  else
    let nodeCount := data.nodes.length
    let edgeCount := data.edges.length
    let nodeErrors :=
      if nodeCount > MAX_NODES then
        [s!"Too many nodes: {nodeCount} (max: {MAX_NODES})"]
      else []
    let nodeWarnings :=
      if nodeCount > MAX_NODES then []
      else if nodeCount > WARN_NODES then
        [s!"Large graph: {nodeCount} nodes may impact performance"]
      else []
    let edgeErrors :=
      if edgeCount > MAX_EDGES then
        [s!"Too many edges: {edgeCount} (max: {MAX_EDGES})"]
      else []
    let edgeWarnings :=
      if edgeCount > MAX_EDGES then []
      else if edgeCount > WARN_EDGES then
        [s!"Large graph: {edgeCount} edges may impact performance"]
      else []
    let errors := nodeErrors ++ edgeErrors
    { valid := errors.length == 0
      warnings := nodeWarnings ++ edgeWarnings
      errors := errors }

/-- The three states of the circuit breaker in src/unnamed/part_008.
The constructor for `"OPEN"` is written `open_` because `open` is a
Lean keyword. -/
inductive CBState where
  | closed
  | open_
  | halfOpen
deriving DecidableEq

/-- The mutable fields of the CircuitBreaker class from
src/unnamed/part_008 together with its constructor parameters;
timestamps (`Date.now()`) are modelled as natural-number milliseconds. -/
structure CircuitBreaker where
  failures : Nat
  lastFailureTime : Nat
  state : CBState
  threshold : Nat
  timeout : Nat

/-- A freshly constructed breaker: `new CircuitBreaker(threshold, timeout)`. -/
def CircuitBreaker.mk0 (threshold : Nat := 5) (timeout : Nat := 60000) : CircuitBreaker :=
  { failures := 0, lastFailureTime := 0, state := .closed
    threshold := threshold, timeout := timeout }

/-- CircuitBreaker.onSuccess from src/unnamed/part_008. -/
def CircuitBreaker.onSuccess (cb : CircuitBreaker) : CircuitBreaker :=
  { cb with failures := 0, state := .closed }

/-- CircuitBreaker.onFailure from src/unnamed/part_008, with `Date.now()`
passed in as `now`. -/
def CircuitBreaker.onFailure (cb : CircuitBreaker) (now : Nat) : CircuitBreaker :=
  let failures := cb.failures + 1
  { cb with
    failures := failures
    lastFailureTime := now
    state := if cb.threshold ≤ failures then .open_ else cb.state }

/-- The observable outcome of one `execute` call: rejected without
invoking the wrapped operation, or invoked and the operation
succeeded / failed. -/
inductive ExecOutcome where
  | rejected
  | succeeded
  | failed
deriving DecidableEq

/-- CircuitBreaker.execute from src/unnamed/part_008. The wrapped
operation is modelled by its outcome `opSucceeds`; `Date.now()` is
passed in as `now`. Returns the call's outcome and the breaker's new
state. -/
def CircuitBreaker.execute (cb : CircuitBreaker) (now : Nat) (opSucceeds : Bool) :
    ExecOutcome × CircuitBreaker :=
  if cb.state = .open_ ∧ now - cb.lastFailureTime < cb.timeout then
    (.rejected, cb)
  else
    let cb1 := if cb.state = .open_ then { cb with state := .halfOpen } else cb
    if opSucceeds then (.succeeded, cb1.onSuccess) else (.failed, cb1.onFailure now)

/-- One `ids.add(x)` step on the insertion-ordered JS `Set<string>`,
represented as a duplicate-free list in insertion order. -/
def insertId (ids : List String) (s : String) : List String :=
  if s ∈ ids then ids else ids ++ [s]

/-- The inner loop of `extractCypherNodeIds` over one entry of an
array-valued record value: only a truthy object with an `id` key
contributes. -/
def collectEntry (ids : List String) (entry : JVal) : List String :=
  match entry with
  | .obj fields =>
      match fields.lookup "id" with
      | some idv => insertId ids (jsToString idv)
      | none => ids
  | _ => ids

/-- The body of `extractCypherNodeIds` over one record value: arrays are
recursed into one level, entity-shaped objects contribute their `id`,
everything else is skipped. -/
def collectValue (ids : List String) (value : JVal) : List String :=
  match value with
  | .arr entries => entries.foldl collectEntry ids
  | .obj fields =>
      match fields.lookup "id" with
      | some idv => insertId ids (jsToString idv)
      | none => ids
  | _ => ids

/-- The loop of `extractCypherNodeIds` over one record
(`Object.values(record).forEach`). -/
def collectRecord (ids : List String) (record : List (String × JVal)) : List String :=
  record.foldl (fun acc kv => collectValue acc kv.2) ids

/-- extractCypherNodeIds from src/unnamed/part_001. -/
def extractCypherNodeIds (result : CypherResult) : List String :=
  match result.records with
  | none => []
  | some records => records.foldl collectRecord []

/-- Modelled from the spec (refinement side for the highlight
extraction): the ids, coerced to strings, of the entity-shaped values
contributed by one record value — the value itself when it is an
object with an `id` key, and each of its object-with-`id` elements
when it is an array. -/
def entityIdsOfValue (value : JVal) : List String :=
  match value with
  | .obj fields =>
      match fields.lookup "id" with
      | some idv => [jsToString idv]
      | none => []
  | .arr entries =>
      entries.flatMap (fun entry =>
        match entry with
        | .obj fields =>
            match fields.lookup "id" with
            | some idv => [jsToString idv]
            | none => []
        | _ => [])
  | _ => []

/-- handleCypherResult from src/unnamed/part_001, modelled as the list
of actions it dispatches, in order; `new Date().toISOString()` is
passed in as the oracle argument `now`. -/
def handleCypherResult (result : CypherResult) (now : String) : List AppAction :=
  [.cypherResultSet result] ++
    (let ids := extractCypherNodeIds result
     if 0 < ids.length then [.nodesHighlighted ids] else []) ++
    [.logEntryAdded
      { id := none
        message := s!"Cypher returned {(result.records.map List.length).getD 0} record(s)"
        createdAt := now
        level := some .debug }]

/-- The chat role carried by an `agent.message` payload, as
`handleAgentMessage` reads `payload.role` (any value other than the
three role strings is modelled by its JS string image; the handler
forwards it unchecked, so we coerce the three literals and default the
rest to `user`, which the claims never exercise). -/
def roleOfJVal (v : Option JVal) : ChatRole :=
  match v with
  | some (.str "assistant") => .assistant
  | some (.str "system") => .system
  | _ => .user

/-- The dynamic check `typeof v === "string"` on a possibly-undefined
value. -/
def isStringVal : Option JVal → Bool
  | some (.str _) => true
  | _ => false

/-- handleAgentMessage from src/unnamed/part_001, modelled as the list
of actions it dispatches, in order. -/
def handleAgentMessage (event : AgentEvent) : List AppAction :=
  if jsTruthy event.payload = false ∨
      isStringVal (event.payload.bind (fun p => jsField p "content")) = false then
    []
  else
    let content :=
      match event.payload.bind (fun p => jsField p "content") with
      | some (.str s) => s
      | _ => ""
    let role := roleOfJVal (event.payload.bind (fun p => jsField p "role"))
    [.chatMessageAdded
      { id := event.id, role := role, content := content, createdAt := event.createdAt }] ++
      (if role = .assistant then [.agentWaitingSet false] else [])

/-- Dispatching a list of actions in order through the reducer; each
dispatch consumes one oracle id from `genIds` (paired positionally). -/
def dispatchAll (genId : String) (state : AppState) (actions : List AppAction) : AppState :=
  actions.foldl (appReducer genId) state

/-- The retry-wrapper state of useWebSocketWithRetry
(src/frontend/hooks/useWebSocketWithRetry.ts): the refs
`retryCountRef`, `retryTimeoutRef` (whether a retry timer is pending)
and `isManualCloseRef`. -/
structure RetryState where
  retryCount : Nat
  pendingRetry : Bool
  isManualClose : Bool

/-- The default `maxRetries` of useWebSocketWithRetry. -/
def maxRetries : Nat := 5

/-- handleStatusChange from useWebSocketWithRetry, restricted to its
state effects: on `"open"` the counter resets and any pending timer is
cleared; on `"closed"` a retry timer is scheduled only when the close
was not manual and the counter is still below `maxRetries`. -/
def handleStatusChange (s : RetryState) (status : ConnectionState) : RetryState :=
  match status with
  | .open_ => { s with retryCount := 0, pendingRetry := false }
  | .closed =>
      if s.isManualClose = false ∧ s.retryCount < maxRetries then
        { s with pendingRetry := true }
      else s
  | _ => s

/-- The pending retry timer firing: the counter is incremented and the
underlying `reconnect()` is invoked (the returned flag records whether
a connection attempt was made). -/
def retryTimerFires (s : RetryState) : RetryState × Bool :=
  if s.pendingRetry then
    ({ s with retryCount := s.retryCount + 1, pendingRetry := false }, true)
  else (s, false)

/-- forceReconnect from useWebSocketWithRetry: clears the manual-close
flag and any pending timer, then attempts a connection (incrementing
the counter) only when the counter is below `maxRetries`. The returned
flag records whether the underlying `reconnect()` was invoked. -/
def forceReconnect (s : RetryState) : RetryState × Bool :=
  let s1 := { s with isManualClose := false, pendingRetry := false }
  if s1.retryCount < maxRetries then
    ({ s1 with retryCount := s1.retryCount + 1 }, true)
  else (s1, false)

/-- closeConnection from useWebSocketWithRetry: marks the close as
manual and clears any pending timer. -/
def closeConnection (s : RetryState) : RetryState :=
  { s with isManualClose := true, pendingRetry := false }

/-- The externally observable steps of GraphUploader.parseGraph
(src/frontend/components/GraphUploader.tsx). -/
inductive UploadStep where
  | graphLoadedCallback
  | statusParseError
  | statusLoaded
  | backendSync
deriving DecidableEq

/-- parseGraph from src/frontend/components/GraphUploader.tsx, modelled
as the ordered trace of its observable steps. The input is the result
of `JSON.parse(text)` (`none` when the text is not valid JSON, which
makes `JSON.parse` throw). A thrown error — parse failure or the
explicit `Missing nodes or edges array` throw when `payload.nodes` or
`payload.edges` is falsy — lands in the catch block, which only sets a
parse-error status. Otherwise the local `onGraphLoaded` callback runs,
the loaded status is set, and only then is the backend sync attempted. -/
def parseGraph (parsed : Option JVal) : List UploadStep :=
  match parsed with
  | none => [.statusParseError]
  | some payload =>
      if jsTruthy (jsField payload "nodes") = false ∨
          jsTruthy (jsField payload "edges") = false then
        [.statusParseError]
      else
        [.graphLoadedCallback, .statusLoaded, .backendSync]

lemma length_takeLast_le (n : Nat) (l : List α) : (takeLast n l).length ≤ n := by
  simp only [takeLast, List.length_drop]
  omega

lemma takeLast_append_singleton {n : Nat} (hn : 1 ≤ n) (l : List α) (a : α) :
    takeLast n (l ++ [a]) = l.drop (l.length + 1 - n) ++ [a] := by
  unfold takeLast
  have hlen : (l ++ [a]).length = l.length + 1 := by simp
  rw [hlen, List.drop_append_of_le_length (by omega)]

lemma appReducer_chat_dup (genId : String) (s : AppState) (m : ChatMessage)
    (h : s.chatMessages.any (fun m' => m'.id == m.id) = true) :
    appReducer genId s (.chatMessageAdded m) = s := by
  simp [appReducer, h]

lemma appReducer_chat_fresh (genId : String) (s : AppState) (m : ChatMessage)
    (h : s.chatMessages.any (fun m' => m'.id == m.id) = false) :
    appReducer genId s (.chatMessageAdded m) =
      { s with chatMessages := takeLast MAX_CHAT_MESSAGES (s.chatMessages ++ [m]) } := by
  simp [appReducer, h]

lemma countP_chat_fresh (genId : String) (s : AppState) (m : ChatMessage)
    (h : s.chatMessages.any (fun m' => m'.id == m.id) = false) :
    ((appReducer genId s (.chatMessageAdded m)).chatMessages).countP
        (fun m' => m'.id == m.id) = 1 := by
  rw [appReducer_chat_fresh genId s m h]
  have hsplit := takeLast_append_singleton (n := MAX_CHAT_MESSAGES)
    (by decide) s.chatMessages m
  simp only [hsplit]
  rw [List.countP_append]
  have hzero : s.chatMessages.countP (fun m' => m'.id == m.id) = 0 :=
    List.countP_eq_zero.mpr (List.any_eq_false.mp h)
  have hdrop :
      (s.chatMessages.drop (s.chatMessages.length + 1 - MAX_CHAT_MESSAGES)).countP
        (fun m' => m'.id == m.id) = 0 := by
    have hle := (List.drop_sublist (s.chatMessages.length + 1 - MAX_CHAT_MESSAGES)
      s.chatMessages).countP_le (fun m' => m'.id == m.id)
    omega
  rw [hdrop]
  simp

lemma mem_chat_fresh (genId : String) (s : AppState) (m : ChatMessage)
    (h : s.chatMessages.any (fun m' => m'.id == m.id) = false) :
    (appReducer genId s (.chatMessageAdded m)).chatMessages.any
        (fun m' => m'.id == m.id) = true := by
  rw [appReducer_chat_fresh genId s m h]
  refine List.any_eq_true.mpr ⟨m, ?_, by simp⟩
  have hsplit := takeLast_append_singleton (n := MAX_CHAT_MESSAGES)
    (by decide) s.chatMessages m
  simp only [hsplit]
  exact List.mem_append_right _ (List.mem_singleton.mpr rfl)

/-- C1: the `CHAT_MESSAGE_ADDED` branch of the reducer is idempotent by
message id — a duplicate id is a no-op, a fresh message is appended at
the end with the 120-message cap enforced by evicting the oldest
entries first (`slice(-120)` keeps the most recent suffix), the cap is
never exceeded, and dispatching the same message twice into a state
holding at most one copy of its id leaves exactly one occurrence. -/
theorem C1_chat_message_added_idempotent_capped
    (genId genId2 : String) (s : AppState) (m : ChatMessage) :
    (s.chatMessages.any (fun m' => m'.id == m.id) = true →
        appReducer genId s (.chatMessageAdded m) = s) ∧
    (s.chatMessages.any (fun m' => m'.id == m.id) = false →
        (appReducer genId s (.chatMessageAdded m)).chatMessages
          = takeLast MAX_CHAT_MESSAGES (s.chatMessages ++ [m])) ∧
    (s.chatMessages.length ≤ MAX_CHAT_MESSAGES →
        (appReducer genId s (.chatMessageAdded m)).chatMessages.length
          ≤ MAX_CHAT_MESSAGES) ∧
    (s.chatMessages.countP (fun m' => m'.id == m.id) ≤ 1 →
        ((appReducer genId2 (appReducer genId s (.chatMessageAdded m))
            (.chatMessageAdded m)).chatMessages).countP (fun m' => m'.id == m.id)
          = 1) := by
  refine ⟨fun h => appReducer_chat_dup genId s m h,
    fun h => by rw [appReducer_chat_fresh genId s m h],
    fun h => ?_, fun h => ?_⟩
  · rcases hany : s.chatMessages.any (fun m' => m'.id == m.id) with _ | _
    · rw [appReducer_chat_fresh genId s m hany]
      exact length_takeLast_le _ _
    · rw [appReducer_chat_dup genId s m hany]
      exact h
  · rcases hany : s.chatMessages.any (fun m' => m'.id == m.id) with _ | _
    · rw [appReducer_chat_dup genId2 _ m (mem_chat_fresh genId s m hany)]
      exact countP_chat_fresh genId s m hany
    · rw [appReducer_chat_dup genId s m hany, appReducer_chat_dup genId2 s m hany]
      have hpos : 0 < s.chatMessages.countP (fun m' => m'.id == m.id) :=
        List.countP_pos_iff.mpr (List.any_eq_true.mp hany)
      omega

/-- A one-message chat used to exercise the duplicate branch of C1. -/
def chatMsg0 : ChatMessage :=
  { id := "m1", role := .user, content := "hi", createdAt := "2024-01-01" }

/-- A state already holding `chatMsg0`. -/
def stateWithChat0 : AppState :=
  { initialAppState with chatMessages := [chatMsg0] }

/-- Witness for C1 at concrete inputs: the duplicate branch on a state
already holding the message, and the fresh branches on the initial
state. -/
theorem C1_witness :
    (appReducer "g" stateWithChat0 (.chatMessageAdded chatMsg0) = stateWithChat0) ∧
    ((appReducer "g" initialAppState (.chatMessageAdded chatMsg0)).chatMessages
      = takeLast MAX_CHAT_MESSAGES (initialAppState.chatMessages ++ [chatMsg0])) ∧
    ((appReducer "g" initialAppState (.chatMessageAdded chatMsg0)).chatMessages.length
      ≤ MAX_CHAT_MESSAGES) ∧
    (((appReducer "g2" (appReducer "g" initialAppState (.chatMessageAdded chatMsg0))
        (.chatMessageAdded chatMsg0)).chatMessages).countP
          (fun m' => m'.id == chatMsg0.id) = 1) :=
  ⟨(C1_chat_message_added_idempotent_capped "g" "g2" stateWithChat0 chatMsg0).1 (by decide),
   (C1_chat_message_added_idempotent_capped "g" "g2" initialAppState chatMsg0).2.1 (by decide),
   (C1_chat_message_added_idempotent_capped "g" "g2" initialAppState chatMsg0).2.2.1 (by decide),
   (C1_chat_message_added_idempotent_capped "g" "g2" initialAppState chatMsg0).2.2.2 (by decide)⟩

/-- C2: `GRAPH_LOADED` and `GRAPH_REPLACED` atomically install the new
payload, clear the highlights and reset the scenario status and
results in the same returned state, while leaving the cypher result,
logs, chat, waiting flag and connection status untouched. -/
theorem C2_graph_replace_atomic_reset (genId : String) (s : AppState) (p : GraphPayload) :
    ((appReducer genId s (.graphReplaced p)).graphData = some p ∧
      (appReducer genId s (.graphReplaced p)).highlightedNodes = [] ∧
      (appReducer genId s (.graphReplaced p)).scenarioStatus = none ∧
      (appReducer genId s (.graphReplaced p)).scenarioResults = none ∧
      (appReducer genId s (.graphReplaced p)).cypherResult = s.cypherResult ∧
      (appReducer genId s (.graphReplaced p)).logEntries = s.logEntries ∧
      (appReducer genId s (.graphReplaced p)).chatMessages = s.chatMessages ∧
      (appReducer genId s (.graphReplaced p)).isWaitingForAgent = s.isWaitingForAgent ∧
      (appReducer genId s (.graphReplaced p)).connectionStatus = s.connectionStatus) ∧
    ((appReducer genId s (.graphLoaded p)).graphData = some p ∧
      (appReducer genId s (.graphLoaded p)).highlightedNodes = [] ∧
      (appReducer genId s (.graphLoaded p)).scenarioStatus = none ∧
      (appReducer genId s (.graphLoaded p)).scenarioResults = none ∧
      (appReducer genId s (.graphLoaded p)).cypherResult = s.cypherResult ∧
      (appReducer genId s (.graphLoaded p)).logEntries = s.logEntries ∧
      (appReducer genId s (.graphLoaded p)).chatMessages = s.chatMessages ∧
      (appReducer genId s (.graphLoaded p)).isWaitingForAgent = s.isWaitingForAgent ∧
      (appReducer genId s (.graphLoaded p)).connectionStatus = s.connectionStatus) :=
  ⟨⟨rfl, rfl, rfl, rfl, rfl, rfl, rfl, rfl, rfl⟩,
   ⟨rfl, rfl, rfl, rfl, rfl, rfl, rfl, rfl, rfl⟩⟩

/-- A sequence of `LOG_ENTRY_ADDED` dispatches; each action carries its
payload and the oracle id that `generateId()` would produce for it. -/
def dispatchLogs (s : AppState) (ps : List (LogEntryPayload × String)) : AppState :=
  ps.foldl (fun st pg => appReducer pg.2 st (.logEntryAdded pg.1)) s

lemma take_append_take (n : Nat) (A B : List α) :
    (A ++ B.take n).take n = (A ++ B).take n := by
  rw [List.take_append_eq_append_take, List.take_append_eq_append_take, List.take_take]
  rw [Nat.min_eq_left (Nat.sub_le n A.length)]

lemma dispatchLogs_logEntries (ps : List (LogEntryPayload × String)) :
    ∀ s : AppState, s.logEntries.length ≤ MAX_LOG_ENTRIES →
      (dispatchLogs s ps).logEntries
        = ((ps.map (fun pg => mkLogEntry pg.1 pg.2)).reverse
            ++ s.logEntries).take MAX_LOG_ENTRIES := by
  induction ps with
  | nil =>
      intro s h
      simpa [dispatchLogs] using (List.take_of_length_le h).symm
  | cons p rest ih =>
      intro s h
      have hstep : dispatchLogs s (p :: rest)
          = dispatchLogs (appReducer p.2 s (.logEntryAdded p.1)) rest := rfl
      have hlog : (appReducer p.2 s (.logEntryAdded p.1)).logEntries
          = (mkLogEntry p.1 p.2 :: s.logEntries).take MAX_LOG_ENTRIES := rfl
      have hlen : (appReducer p.2 s (.logEntryAdded p.1)).logEntries.length
          ≤ MAX_LOG_ENTRIES := by
        rw [hlog, List.length_take]
        exact Nat.min_le_left _ _
      rw [hstep, ih _ hlen, hlog, take_append_take]
      simp [List.append_assoc]

/-- C3: `LOG_ENTRY_ADDED` prepends the new entry (newest first), uses
the caller's id when one is given and the generated id exactly when it
is omitted, keeps `logEntries` within the 80-entry cap after every
dispatch, and after any 200 dispatches onto any starting state exactly
the 80 most recently added entries remain, newest first. -/
theorem C3_log_entry_added_cap
    (genId : String) (s : AppState) (p : LogEntryPayload) (i : String)
    (ps : List (LogEntryPayload × String)) :
    ((appReducer genId s (.logEntryAdded p)).logEntries
        = (mkLogEntry p genId :: s.logEntries).take MAX_LOG_ENTRIES) ∧
    (p.id = some i → (mkLogEntry p genId).id = i) ∧
    (p.id = none → (mkLogEntry p genId).id = genId) ∧
    ((appReducer genId s (.logEntryAdded p)).logEntries.length ≤ MAX_LOG_ENTRIES) ∧
    (ps.length = 200 →
        (dispatchLogs s ps).logEntries
            = ((ps.map (fun pg => mkLogEntry pg.1 pg.2)).reverse).take MAX_LOG_ENTRIES ∧
          (dispatchLogs s ps).logEntries.length = MAX_LOG_ENTRIES) := by
  refine ⟨rfl, ?_, ?_, ?_, ?_⟩
  · intro h
    simp [mkLogEntry, h]
  · intro h
    simp [mkLogEntry, h]
  · show ((mkLogEntry p genId :: s.logEntries).take MAX_LOG_ENTRIES).length
        ≤ MAX_LOG_ENTRIES
    rw [List.length_take]
    exact Nat.min_le_left _ _
  · intro hlen
    match ps, hlen with
    | p0 :: rest, hlen =>
      have hrest : rest.length = 199 := by
        simpa using hlen
      have hlen1 : (appReducer p0.2 s (.logEntryAdded p0.1)).logEntries.length
          ≤ MAX_LOG_ENTRIES := by
        show ((mkLogEntry p0.1 p0.2 :: s.logEntries).take MAX_LOG_ENTRIES).length
            ≤ MAX_LOG_ENTRIES
        rw [List.length_take]
        exact Nat.min_le_left _ _
      have hmain : (dispatchLogs s (p0 :: rest)).logEntries
          = ((rest.map (fun pg => mkLogEntry pg.1 pg.2)).reverse
              ++ (appReducer p0.2 s (.logEntryAdded p0.1)).logEntries).take
                MAX_LOG_ENTRIES :=
        dispatchLogs_logEntries rest _ hlen1
      have hrevlen : ((rest.map (fun pg => mkLogEntry pg.1 pg.2)).reverse).length = 199 := by
        simp [hrest]
      have hcut : (dispatchLogs s (p0 :: rest)).logEntries
          = ((rest.map (fun pg => mkLogEntry pg.1 pg.2)).reverse).take MAX_LOG_ENTRIES := by
        rw [hmain, List.take_append_of_le_length (by rw [hrevlen]; decide)]
      constructor
      · rw [hcut]
        have : (((p0 :: rest).map (fun pg => mkLogEntry pg.1 pg.2)).reverse)
            = (rest.map (fun pg => mkLogEntry pg.1 pg.2)).reverse
                ++ [mkLogEntry p0.1 p0.2] := by
          simp
        rw [this, List.take_append_of_le_length (by rw [hrevlen]; decide)]
      · rw [hcut, List.length_take, hrevlen]
        decide

/-- A log payload without an id, used in the C3 witness. -/
def logPayloadNoId : LogEntryPayload :=
  { id := none, message := "msg", createdAt := "2024-01-01", level := some .info }

/-- A log payload with an explicit id, used in the C3 witness. -/
def logPayloadWithId : LogEntryPayload :=
  { id := some "given", message := "msg", createdAt := "2024-01-01", level := none }

/-- Witness for C3 at concrete inputs: both id branches, and 200
dispatches of the same payload onto the initial state. -/
theorem C3_witness :
    ((mkLogEntry logPayloadWithId "g").id = "given") ∧
    ((mkLogEntry logPayloadNoId "g").id = "g") ∧
    ((dispatchLogs initialAppState (List.replicate 200 (logPayloadNoId, "g"))).logEntries
        = (((List.replicate 200 (logPayloadNoId, "g")).map
            (fun pg => mkLogEntry pg.1 pg.2)).reverse).take MAX_LOG_ENTRIES ∧
      (dispatchLogs initialAppState
          (List.replicate 200 (logPayloadNoId, "g"))).logEntries.length
        = MAX_LOG_ENTRIES) :=
  ⟨(C3_log_entry_added_cap "g" initialAppState logPayloadWithId "given" []).2.1 rfl,
   (C3_log_entry_added_cap "g" initialAppState logPayloadNoId "i" []).2.2.1 rfl,
   (C3_log_entry_added_cap "g" initialAppState logPayloadNoId "i"
      (List.replicate 200 (logPayloadNoId, "g"))).2.2.2.2
      (List.length_replicate 200 _)⟩

/-- C4: the stream-reconnect backoff equals
min(1000 * 2^min(attempt, 8) * jitter, 15000) for jitter in [0.8, 1.2];
it never exceeds 15000 ms, is pointwise (hence in expectation)
non-decreasing in the attempt number, and saturates from attempt 8 on. -/
theorem C4_backoff_monotone_capped (attempt b : Nat) (jitter : ℚ)
    (h08 : (4 : ℚ) / 5 ≤ jitter) (h12 : jitter ≤ (6 : ℚ) / 5) :
    computeBackoff attempt jitter
        = min (1000 * 2 ^ (min attempt 8) * jitter) 15000 ∧
    computeBackoff attempt jitter ≤ 15000 ∧
    (attempt ≤ b → computeBackoff attempt jitter ≤ computeBackoff b jitter) ∧
    (8 ≤ attempt → computeBackoff attempt jitter = computeBackoff 8 jitter) := by
  refine ⟨rfl, min_le_right _ _, ?_, ?_⟩
  · intro hab
    have hj : (0 : ℚ) ≤ jitter := le_trans (by norm_num) h08
    refine min_le_min ?_ le_rfl
    have hpow : (2 : ℚ) ^ (min attempt 8) ≤ 2 ^ (min b 8) :=
      pow_le_pow_right₀ (by norm_num) (min_le_min hab le_rfl)
    have hbase : BACKOFF_BASE_MS * 2 ^ (min attempt 8)
        ≤ BACKOFF_BASE_MS * 2 ^ (min b 8) := by
      have : (0 : ℚ) ≤ BACKOFF_BASE_MS := by norm_num [BACKOFF_BASE_MS]
      exact mul_le_mul_of_nonneg_left hpow this
    exact mul_le_mul_of_nonneg_right hbase hj
  · intro h8
    unfold computeBackoff
    rw [Nat.min_eq_right h8, Nat.min_self]

/-- Witness for C4 at concrete inputs: jitter 1 is in [0.8, 1.2]; the
delay at attempt 3 is capped and no larger than at attempt 5, and the
delay at attempt 9 equals the delay at attempt 8. -/
theorem C4_witness :
    computeBackoff 3 1 ≤ 15000 ∧
    computeBackoff 3 1 ≤ computeBackoff 5 1 ∧
    computeBackoff 9 1 = computeBackoff 8 1 :=
  ⟨(C4_backoff_monotone_capped 3 5 1 (by norm_num) (by norm_num)).2.1,
   (C4_backoff_monotone_capped 3 5 1 (by norm_num) (by norm_num)).2.2.1 (by norm_num),
   (C4_backoff_monotone_capped 9 9 1 (by norm_num) (by norm_num)).2.2.2 (by norm_num)⟩

/-- One failing call through the breaker, keeping only the new breaker
state. -/
def failStep (t : Nat) (cb : CircuitBreaker) : CircuitBreaker :=
  (cb.execute t false).2

/-- Every breaker state reachable from a fresh breaker satisfies this:
away from CLOSED the recorded failures have reached the threshold. -/
def cbInvariant (cb : CircuitBreaker) : Prop :=
  cb.state ≠ .closed → cb.threshold ≤ cb.failures

lemma execute_not_rejected_eq (cb : CircuitBreaker) (now : Nat) (b : Bool)
    (h : ¬(cb.state = .open_ ∧ now - cb.lastFailureTime < cb.timeout)) :
    cb.execute now b
      = if b then
          (.succeeded, { cb with failures := 0, state := .closed })
        else
          (.failed,
            { cb with
              failures := cb.failures + 1
              lastFailureTime := now
              state :=
                if cb.threshold ≤ cb.failures + 1 then .open_
                else if cb.state = .open_ then .halfOpen else cb.state }) := by
  unfold CircuitBreaker.execute
  rw [if_neg h]
  by_cases hop : cb.state = .open_ <;>
    cases b <;>
      simp [hop, CircuitBreaker.onSuccess, CircuitBreaker.onFailure]

/-- C5: with threshold 5 and timeout 60000 ms, five consecutive failing
calls starting from a clean CLOSED breaker are all invoked and leave
the breaker OPEN; while OPEN, any call strictly inside the 60000 ms
window is rejected with the breaker unchanged and the wrapped
operation not invoked (the outcome is `rejected` whatever the
operation would have done); a call at or after the window is let
through as a probe; any invoked successful call returns the breaker to
CLOSED with zero failures; and a failure while HALF_OPEN (where
reachable states carry threshold-many failures, an invariant `execute`
preserves) reopens the breaker immediately. -/
theorem C5_circuit_breaker (t1 t2 t3 t4 t5 : Nat) :
    (∀ cb : CircuitBreaker, cb.state = .closed → cb.threshold = 5 → cb.failures = 0 →
        (cb.execute t1 false).1 = .failed ∧
        ((failStep t1 cb).execute t2 false).1 = .failed ∧
        ((failStep t2 (failStep t1 cb)).execute t3 false).1 = .failed ∧
        ((failStep t3 (failStep t2 (failStep t1 cb))).execute t4 false).1 = .failed ∧
        ((failStep t4 (failStep t3 (failStep t2 (failStep t1 cb)))).execute t5 false).1
          = .failed ∧
        (failStep t5 (failStep t4 (failStep t3 (failStep t2 (failStep t1 cb))))).state
          = .open_) ∧
    (∀ (cb : CircuitBreaker) (now : Nat) (b : Bool), cb.state = .open_ →
        cb.timeout = 60000 → now - cb.lastFailureTime < 60000 →
        cb.execute now b = (.rejected, cb)) ∧
    (∀ (cb : CircuitBreaker) (now : Nat) (b : Bool), cb.state = .open_ →
        cb.timeout = 60000 → ¬ now - cb.lastFailureTime < 60000 →
        (cb.execute now b).1 ≠ .rejected) ∧
    (∀ (cb : CircuitBreaker) (now : Nat), (cb.execute now true).1 ≠ .rejected →
        (cb.execute now true).2.state = .closed ∧ (cb.execute now true).2.failures = 0) ∧
    (∀ (cb : CircuitBreaker) (now : Nat), cb.state = .halfOpen →
        cb.threshold ≤ cb.failures → (cb.execute now false).2.state = .open_) ∧
    (∀ (cb : CircuitBreaker) (now : Nat) (b : Bool),
        cbInvariant cb → cbInvariant (cb.execute now b).2) := by
  refine ⟨?_, ?_, ?_, ?_, ?_, ?_⟩
  · intro cb hst hthr h0
    obtain ⟨f, lt, st, thr, tmo⟩ := cb
    dsimp only at hst hthr h0
    subst hst hthr h0
    refine ⟨?_, ?_, ?_, ?_, ?_, ?_⟩ <;>
      simp [failStep, CircuitBreaker.execute, CircuitBreaker.onFailure]
  · intro cb now b hst hto hwin
    have hwin' : now - cb.lastFailureTime < cb.timeout := by rw [hto]; exact hwin
    simp [CircuitBreaker.execute, hst, hwin']
  · intro cb now b hst hto hwin
    have hwin' : ¬ now - cb.lastFailureTime < cb.timeout := by rw [hto]; exact hwin
    have hrej : ¬(cb.state = .open_ ∧ now - cb.lastFailureTime < cb.timeout) :=
      fun hc => hwin' hc.2
    rw [execute_not_rejected_eq cb now b hrej]
    cases b <;> simp
  · intro cb now hne
    by_cases hrej : cb.state = .open_ ∧ now - cb.lastFailureTime < cb.timeout
    · rw [show cb.execute now true = (.rejected, cb) from by
        simp [CircuitBreaker.execute, hrej]] at hne
      exact absurd rfl hne
    · rw [execute_not_rejected_eq cb now true hrej]
      exact ⟨rfl, rfl⟩
  · intro cb now hst hthr
    have hrej : ¬(cb.state = .open_ ∧ now - cb.lastFailureTime < cb.timeout) := by
      rw [hst]
      simp
    rw [execute_not_rejected_eq cb now false hrej,
      if_neg (by decide : ¬(false = true))]
    dsimp only
    rw [if_pos (Nat.le_succ_of_le hthr)]
  · intro cb now b hinv
    by_cases hrej : cb.state = .open_ ∧ now - cb.lastFailureTime < cb.timeout
    · rw [show cb.execute now b = (.rejected, cb) from by
        simp [CircuitBreaker.execute, hrej]]
      exact hinv
    · rw [execute_not_rejected_eq cb now b hrej]
      cases b
      · rw [if_neg (by decide : ¬(false = true))]
        unfold cbInvariant
        dsimp only
        intro hne
        by_cases hc : cb.threshold ≤ cb.failures + 1
        · exact hc
        · rw [if_neg hc] at hne
          by_cases hop : cb.state = .open_
          · exact absurd (Nat.le_succ_of_le (hinv (by rw [hop]; decide))) hc
          · rw [if_neg hop] at hne
            exact absurd (Nat.le_succ_of_le (hinv hne)) hc
      · rw [if_pos rfl]
        unfold cbInvariant
        dsimp only
        intro hne
        exact absurd rfl hne

/-- A breaker that has just tripped OPEN at time 100. -/
def cbOpen5 : CircuitBreaker :=
  { failures := 5, lastFailureTime := 100, state := .open_, threshold := 5, timeout := 60000 }

/-- The same breaker in its HALF_OPEN probe state. -/
def cbHalf5 : CircuitBreaker :=
  { cbOpen5 with state := .halfOpen }

/-- Witness for C5 at concrete inputs: a fresh breaker trips after five
failures; at time 200 (inside the window) calls are rejected
unchanged; at time 60100 (past the window) the probe goes through and
a success recloses with zero failures; a HALF_OPEN failure reopens;
and the invariant is preserved through a rejected call. -/
theorem C5_witness :
    ((CircuitBreaker.mk0 5 60000).execute 1 false).1 = .failed ∧
    (failStep 5 (failStep 4 (failStep 3 (failStep 2
        (failStep 1 (CircuitBreaker.mk0 5 60000)))))).state = .open_ ∧
    cbOpen5.execute 200 true = (.rejected, cbOpen5) ∧
    (cbOpen5.execute 60100 true).1 ≠ .rejected ∧
    ((cbOpen5.execute 60100 true).2.state = .closed ∧
      (cbOpen5.execute 60100 true).2.failures = 0) ∧
    (cbHalf5.execute 60100 false).2.state = .open_ ∧
    cbInvariant (cbOpen5.execute 200 false).2 :=
  ⟨((C5_circuit_breaker 1 2 3 4 5).1 (CircuitBreaker.mk0 5 60000) rfl rfl rfl).1,
   ((C5_circuit_breaker 1 2 3 4 5).1 (CircuitBreaker.mk0 5 60000) rfl rfl rfl).2.2.2.2.2,
   (C5_circuit_breaker 1 2 3 4 5).2.1 cbOpen5 200 true rfl rfl (by decide),
   (C5_circuit_breaker 1 2 3 4 5).2.2.1 cbOpen5 60100 true rfl rfl (by decide),
   (C5_circuit_breaker 1 2 3 4 5).2.2.2.1 cbOpen5 60100 (by decide),
   (C5_circuit_breaker 1 2 3 4 5).2.2.2.2.1 cbHalf5 60100 rfl (by decide),
   (C5_circuit_breaker 1 2 3 4 5).2.2.2.2.2 cbOpen5 200 false (fun _ => by decide)⟩

/-- A message "mentions" a number when the number's decimal rendering
occurs in it as a substring. -/
def mentions (num : Nat) (msg : String) : Prop :=
  (toString num).toList <:+: msg.toList

/-- A shape-valid payload with `n` identical nodes and no edges. -/
def graphWithNodes (n : Nat) : GraphPayload :=
  { version := "1"
    metadata := []
    nodes := List.replicate n { id := "n", labels := [], attrs := [] }
    edges := [] }

instance (num : Nat) (msg : String) : Decidable (mentions num msg) :=
  inferInstanceAs (Decidable ((toString num).toList <:+: msg.toList))

lemma nodes_length_graphWithNodes (n : Nat) :
    (graphWithNodes n).nodes.length = n := by
  simp [graphWithNodes]

lemma edges_length_graphWithNodes (n : Nat) :
    (graphWithNodes n).edges.length = 0 := rfl

lemma validate_graphWithNodes (n : Nat) :
    validateGraphData (graphWithNodes n) = true := by
  unfold validateGraphData graphWithNodes
  simp only [List.all_eq_true, List.mem_replicate, Bool.and_eq_true, List.all_nil]
  refine ⟨fun x hx => ?_, trivial⟩
  rw [hx.2]
  decide

/-- C6 counterexample: the guard accepts a payload with exactly 1001
nodes, but the warning it produces is
"Large graph: 1001 nodes may impact performance", which names the
count 1001 and does not mention the threshold 1000 anywhere —
contradicting the claim that the warning mentions 1000. -/
theorem C6_counterexample :
    validateGraphData (graphWithNodes 1001) = true ∧
    (checkGraphLimits (graphWithNodes 1001)).valid = true ∧
    (checkGraphLimits (graphWithNodes 1001)).warnings
      = ["Large graph: 1001 nodes may impact performance"] ∧
    ∀ w ∈ (checkGraphLimits (graphWithNodes 1001)).warnings, ¬ mentions 1000 w := by
  have h := validate_graphWithNodes 1001
  have hck :
      checkGraphLimits (graphWithNodes 1001)
        = { valid := true
            warnings := ["Large graph: 1001 nodes may impact performance"]
            errors := [] } := by
    simp [checkGraphLimits, h, nodes_length_graphWithNodes,
      edges_length_graphWithNodes, MAX_NODES, WARN_NODES, MAX_EDGES, WARN_EDGES]
    decide
  refine ⟨h, by rw [hck], by rw [hck], ?_⟩
  rw [hck]
  intro w hw
  rw [List.mem_singleton.mp hw]
  decide

/-- C6 (amended): for every shape-valid payload the guard rejects
exactly when a hard maximum (10000 nodes / 50000 edges) is exceeded,
and warns exactly when a soft threshold (1000 nodes / 5000 edges) is
exceeded without exceeding the maximum, independently for nodes and
edges; at the boundaries, 10001 nodes are rejected with an error
naming the count 10001 and the maximum 10000, 1001 nodes are accepted
with a warning naming the count 1001 (not the threshold), and 999
nodes produce neither warning nor error. -/
theorem C6_graph_size_guard_amended (d : GraphPayload)
    (h : validateGraphData d = true) :
    ((checkGraphLimits d).valid = true ↔
        d.nodes.length ≤ MAX_NODES ∧ d.edges.length ≤ MAX_EDGES) ∧
    ((checkGraphLimits d).warnings ≠ [] ↔
        (WARN_NODES < d.nodes.length ∧ d.nodes.length ≤ MAX_NODES) ∨
        (WARN_EDGES < d.edges.length ∧ d.edges.length ≤ MAX_EDGES)) ∧
    ((checkGraphLimits (graphWithNodes 10001)).valid = false ∧
      ∃ e ∈ (checkGraphLimits (graphWithNodes 10001)).errors,
        mentions 10001 e ∧ mentions 10000 e) ∧
    ((checkGraphLimits (graphWithNodes 1001)).valid = true ∧
      ∃ w ∈ (checkGraphLimits (graphWithNodes 1001)).warnings, mentions 1001 w) ∧
    ((checkGraphLimits (graphWithNodes 999)).valid = true ∧
      (checkGraphLimits (graphWithNodes 999)).warnings = [] ∧
      (checkGraphLimits (graphWithNodes 999)).errors = []) := by
  refine ⟨?_, ?_, ?_, ?_, ?_⟩
  · by_cases hn1 : d.nodes.length > MAX_NODES <;>
      by_cases he1 : d.edges.length > MAX_EDGES <;>
        by_cases hn2 : d.nodes.length > WARN_NODES <;>
          by_cases he2 : d.edges.length > WARN_EDGES <;>
            simp [checkGraphLimits, h, hn1, he1, hn2, he2] <;> omega
  · by_cases hn1 : d.nodes.length > MAX_NODES <;>
      by_cases he1 : d.edges.length > MAX_EDGES <;>
        by_cases hn2 : d.nodes.length > WARN_NODES <;>
          by_cases he2 : d.edges.length > WARN_EDGES <;>
            simp [checkGraphLimits, h, hn1, he1, hn2, he2] <;> omega
  · have hv := validate_graphWithNodes 10001
    have hck :
        checkGraphLimits (graphWithNodes 10001)
          = { valid := false
              warnings := []
              errors := ["Too many nodes: 10001 (max: 10000)"] } := by
      simp [checkGraphLimits, hv, nodes_length_graphWithNodes,
        edges_length_graphWithNodes, MAX_NODES, WARN_NODES, MAX_EDGES, WARN_EDGES]
      decide
    rw [hck]
    exact ⟨rfl, "Too many nodes: 10001 (max: 10000)", List.mem_singleton.mpr rfl,
      by decide, by decide⟩
  · have hv := validate_graphWithNodes 1001
    have hck :
        checkGraphLimits (graphWithNodes 1001)
          = { valid := true
              warnings := ["Large graph: 1001 nodes may impact performance"]
              errors := [] } := by
      simp [checkGraphLimits, hv, nodes_length_graphWithNodes,
        edges_length_graphWithNodes, MAX_NODES, WARN_NODES, MAX_EDGES, WARN_EDGES]
      decide
    rw [hck]
    exact ⟨rfl, "Large graph: 1001 nodes may impact performance",
      List.mem_singleton.mpr rfl, by decide⟩
  · have hv := validate_graphWithNodes 999
    have hck :
        checkGraphLimits (graphWithNodes 999)
          = { valid := true, warnings := [], errors := [] } := by
      simp [checkGraphLimits, hv, nodes_length_graphWithNodes,
        edges_length_graphWithNodes, MAX_NODES, WARN_NODES, MAX_EDGES, WARN_EDGES]
    rw [hck]
    exact ⟨rfl, rfl, rfl⟩

/-- Witness for C6 at a concrete input: the amended characterisation
applied to the 999-node payload. -/
theorem C6_witness :
    ((checkGraphLimits (graphWithNodes 999)).valid = true ↔
        (graphWithNodes 999).nodes.length ≤ MAX_NODES ∧
          (graphWithNodes 999).edges.length ≤ MAX_EDGES) ∧
    ((checkGraphLimits (graphWithNodes 999)).warnings = [] ∧
      (checkGraphLimits (graphWithNodes 999)).errors = []) :=
  ⟨(C6_graph_size_guard_amended (graphWithNodes 999)
      (validate_graphWithNodes 999)).1,
   ((C6_graph_size_guard_amended (graphWithNodes 999)
      (validate_graphWithNodes 999)).2.2.2.2).2⟩

/-- Modelled from the spec (refinement side): the string-coerced `id` a
single array entry contributes — non-empty only for an object with an
`id` key. -/
def entryId : JVal → List String
  | .obj fields =>
      match fields.lookup "id" with
      | some idv => [jsToString idv]
      | none => []
  | _ => []

lemma entityIdsOfValue_eq (v : JVal) :
    entityIdsOfValue v
      = match v with
        | .arr entries => entries.flatMap entryId
        | other => entryId other := by
  cases v <;> rfl

lemma mem_insertId {x s : String} {ids : List String} :
    x ∈ insertId ids s ↔ x ∈ ids ∨ x = s := by
  unfold insertId
  split
  · rename_i hmem
    constructor
    · exact Or.inl
    · rintro (hx | rfl)
      · exact hx
      · exact hmem
  · simp

lemma nodup_insertId {ids : List String} (h : ids.Nodup) (s : String) :
    (insertId ids s).Nodup := by
  unfold insertId
  split
  · exact h
  · rename_i hmem
    simp [List.nodup_append, h, hmem]

lemma mem_collectEntry {x : String} {ids : List String} {e : JVal} :
    x ∈ collectEntry ids e ↔ x ∈ ids ∨ x ∈ entryId e := by
  cases e with
  | obj fields =>
      cases hlk : fields.lookup "id" with
      | none => simp [collectEntry.eq_def, entryId.eq_def, hlk]
      | some idv => simp [collectEntry.eq_def, entryId.eq_def, hlk, mem_insertId]
  | null => simp [collectEntry.eq_def, entryId.eq_def]
  | bool b => simp [collectEntry.eq_def, entryId.eq_def]
  | num n => simp [collectEntry.eq_def, entryId.eq_def]
  | str s => simp [collectEntry.eq_def, entryId.eq_def]
  | arr elems => simp [collectEntry.eq_def, entryId.eq_def]

lemma nodup_collectEntry {ids : List String} (h : ids.Nodup) (e : JVal) :
    (collectEntry ids e).Nodup := by
  cases e with
  | obj fields =>
      cases hlk : fields.lookup "id" with
      | none => simpa [collectEntry.eq_def, hlk] using h
      | some idv => simpa [collectEntry.eq_def, hlk] using nodup_insertId h _
  | null => simpa [collectEntry.eq_def] using h
  | bool b => simpa [collectEntry.eq_def] using h
  | num n => simpa [collectEntry.eq_def] using h
  | str s => simpa [collectEntry.eq_def] using h
  | arr elems => simpa [collectEntry.eq_def] using h

lemma mem_foldl_collectEntry {x : String} (entries : List JVal) :
    ∀ ids : List String,
      x ∈ entries.foldl collectEntry ids ↔ x ∈ ids ∨ ∃ e ∈ entries, x ∈ entryId e := by
  induction entries with
  | nil => intro ids; simp
  | cons e es ih =>
      intro ids
      rw [List.foldl_cons, ih (collectEntry ids e)]
      rw [mem_collectEntry]
      simp only [List.mem_cons]
      constructor
      · rintro ((hx | hx) | ⟨e', he', hx⟩)
        · exact Or.inl hx
        · exact Or.inr ⟨e, Or.inl rfl, hx⟩
        · exact Or.inr ⟨e', Or.inr he', hx⟩
      · rintro (hx | ⟨e', (rfl | he'), hx⟩)
        · exact Or.inl (Or.inl hx)
        · exact Or.inl (Or.inr hx)
        · exact Or.inr ⟨e', he', hx⟩

lemma nodup_foldl_collectEntry (entries : List JVal) :
    ∀ ids : List String, ids.Nodup → (entries.foldl collectEntry ids).Nodup := by
  induction entries with
  | nil => intro ids h; simpa using h
  | cons e es ih =>
      intro ids h
      rw [List.foldl_cons]
      exact ih _ (nodup_collectEntry h e)

lemma mem_collectValue {x : String} {ids : List String} {v : JVal} :
    x ∈ collectValue ids v ↔ x ∈ ids ∨ x ∈ entityIdsOfValue v := by
  rw [entityIdsOfValue_eq]
  cases v with
  | arr entries =>
      show x ∈ entries.foldl collectEntry ids ↔ x ∈ ids ∨ x ∈ entries.flatMap entryId
      rw [mem_foldl_collectEntry entries ids]
      simp
  | obj fields =>
      cases hlk : fields.lookup "id" with
      | none => simp [collectValue.eq_def, entryId.eq_def, hlk]
      | some idv => simp [collectValue.eq_def, entryId.eq_def, hlk, mem_insertId]
  | null => simp [collectValue.eq_def, entryId.eq_def]
  | bool b => simp [collectValue.eq_def, entryId.eq_def]
  | num n => simp [collectValue.eq_def, entryId.eq_def]
  | str s => simp [collectValue.eq_def, entryId.eq_def]

lemma nodup_collectValue {ids : List String} (h : ids.Nodup) (v : JVal) :
    (collectValue ids v).Nodup := by
  cases v with
  | arr entries => exact nodup_foldl_collectEntry entries ids h
  | obj fields =>
      cases hlk : fields.lookup "id" with
      | none => simpa [collectValue.eq_def, hlk] using h
      | some idv => simpa [collectValue.eq_def, hlk] using nodup_insertId h _
  | null => simpa [collectValue.eq_def] using h
  | bool b => simpa [collectValue.eq_def] using h
  | num n => simpa [collectValue.eq_def] using h
  | str s => simpa [collectValue.eq_def] using h

lemma mem_collectRecord {x : String} (record : List (String × JVal)) :
    ∀ ids : List String,
      x ∈ collectRecord ids record ↔
        x ∈ ids ∨ ∃ kv ∈ record, x ∈ entityIdsOfValue kv.2 := by
  induction record with
  | nil => intro ids; simp [collectRecord]
  | cons kv kvs ih =>
      intro ids
      rw [(by rfl : collectRecord ids (kv :: kvs) = collectRecord (collectValue ids kv.2) kvs)]
      rw [ih (collectValue ids kv.2), mem_collectValue]
      simp only [List.mem_cons]
      constructor
      · rintro ((hx | hx) | ⟨kv', hkv', hx⟩)
        · exact Or.inl hx
        · exact Or.inr ⟨kv, Or.inl rfl, hx⟩
        · exact Or.inr ⟨kv', Or.inr hkv', hx⟩
      · rintro (hx | ⟨kv', (rfl | hkv'), hx⟩)
        · exact Or.inl (Or.inl hx)
        · exact Or.inl (Or.inr hx)
        · exact Or.inr ⟨kv', hkv', hx⟩

lemma nodup_collectRecord (record : List (String × JVal)) :
    ∀ ids : List String, ids.Nodup → (collectRecord ids record).Nodup := by
  induction record with
  | nil => intro ids h; simpa [collectRecord] using h
  | cons kv kvs ih =>
      intro ids h
      exact ih _ (nodup_collectValue h kv.2)

lemma mem_foldl_collectRecord {x : String} (records : List (List (String × JVal))) :
    ∀ ids : List String,
      x ∈ records.foldl collectRecord ids ↔
        x ∈ ids ∨ ∃ rec ∈ records, ∃ kv ∈ rec, x ∈ entityIdsOfValue kv.2 := by
  induction records with
  | nil => intro ids; simp
  | cons rec recs ih =>
      intro ids
      rw [List.foldl_cons, ih (collectRecord ids rec), mem_collectRecord rec ids]
      simp only [List.mem_cons]
      constructor
      · rintro ((hx | hx) | ⟨rec', hrec', hx⟩)
        · exact Or.inl hx
        · exact Or.inr ⟨rec, Or.inl rfl, hx⟩
        · exact Or.inr ⟨rec', Or.inr hrec', hx⟩
      · rintro (hx | ⟨rec', (rfl | hrec'), hx⟩)
        · exact Or.inl (Or.inl hx)
        · exact Or.inl (Or.inr hx)
        · exact Or.inr ⟨rec', hrec', hx⟩

lemma nodup_foldl_collectRecord (records : List (List (String × JVal))) :
    ∀ ids : List String, ids.Nodup → (records.foldl collectRecord ids).Nodup := by
  induction records with
  | nil => intro ids h; simpa using h
  | cons rec recs ih =>
      intro ids h
      rw [List.foldl_cons]
      exact ih _ (nodup_collectRecord rec ids h)

/-- The single-record result of the claim's example: one scalar entity
with id "n1" and one array of entities with ids "n2" and "n3". -/
def exampleCypherResult : CypherResult :=
  { records :=
      some [[("a", .obj [("id", .str "n1")]),
             ("b", .arr [.obj [("id", .str "n2")], .obj [("id", .str "n3")]])]]
    summary := none }

/-- A result with the same entity id "n1" in two different records. -/
def exampleDupCypherResult : CypherResult :=
  { records :=
      some [[("a", .obj [("id", .str "n1")])],
            [("b", .obj [("id", .str "n1")])]]
    summary := none }

/-- C7: a member of the extracted highlight set is exactly a
string-coerced id of an entity-shaped record value (recursing one
level into array-valued record values) of some record; the extracted
list is always duplicate-free; on the claim's example it is exactly
\x7b"n1", "n2", "n3"\x7d; an id repeated across records is kept once; and
`handleCypherResult` dispatches a `NODES_HIGHLIGHTED` action exactly
when the extracted set is non-empty (and then exactly with that set). -/
theorem C7_highlight_extraction :
    (∀ (result : CypherResult) (x : String),
        x ∈ extractCypherNodeIds result ↔
          ∃ records, result.records = some records ∧
            ∃ rec ∈ records, ∃ kv ∈ rec, x ∈ entityIdsOfValue (Prod.snd kv)) ∧
    (∀ result : CypherResult, (extractCypherNodeIds result).Nodup) ∧
    (extractCypherNodeIds exampleCypherResult = ["n1", "n2", "n3"]) ∧
    (extractCypherNodeIds exampleDupCypherResult = ["n1"]) ∧
    (∀ (result : CypherResult) (now : String) (ids : List String),
        AppAction.nodesHighlighted ids ∈ handleCypherResult result now ↔
          (ids = extractCypherNodeIds result ∧ ids ≠ [])) := by
  refine ⟨?_, ?_, by decide, by decide, ?_⟩
  · intro result x
    cases hrec : result.records with
    | none => simp [extractCypherNodeIds, hrec]
    | some records =>
        rw [(by rw [extractCypherNodeIds, hrec] :
          extractCypherNodeIds result = records.foldl collectRecord [])]
        rw [mem_foldl_collectRecord records []]
        simp [hrec]
  · intro result
    cases hrec : result.records with
    | none => simp [extractCypherNodeIds, hrec]
    | some records =>
        rw [(by rw [extractCypherNodeIds, hrec] :
          extractCypherNodeIds result = records.foldl collectRecord [])]
        exact nodup_foldl_collectRecord records [] List.nodup_nil
  · intro result now ids
    unfold handleCypherResult
    by_cases h : 0 < (extractCypherNodeIds result).length
    · rw [if_pos h]
      simp only [List.cons_append, List.nil_append, List.mem_cons,
        List.not_mem_nil, or_false]
      constructor
      · rintro (hc | hc | hc)
        · exact absurd hc (by simp)
        · rw [AppAction.nodesHighlighted.injEq] at hc
          exact ⟨hc, hc ▸ List.length_pos.mp h⟩
        · exact absurd hc (by simp)
      · rintro ⟨rfl, _⟩
        exact Or.inr (Or.inl rfl)
    · rw [if_neg h]
      have hnil : extractCypherNodeIds result = [] :=
        List.eq_nil_of_length_eq_zero (Nat.eq_zero_of_not_pos h)
      simp only [List.cons_append, List.nil_append, List.mem_cons,
        List.not_mem_nil, or_false]
      constructor
      · rintro (hc | hc)
        · exact absurd hc (by simp)
        · exact absurd hc (by simp)
      · rintro ⟨rfl, hne⟩
        exact absurd hnil hne

/-- C8 counterexample: in the exhausted state (retry counter at
`maxRetries = 5`, no pending timer, not manually closed) a further
close schedules nothing — but, contrary to the claim, an explicit
manual `reconnect()` call does NOT resume connection attempts either:
`forceReconnect` refuses (no underlying reconnect is invoked) and
leaves the counter unchanged. -/
theorem C8_counterexample :
    ({ retryCount := 5, pendingRetry := false, isManualClose := false } :
        RetryState).retryCount = maxRetries ∧
    (handleStatusChange
        { retryCount := 5, pendingRetry := false, isManualClose := false }
        .closed).pendingRetry = false ∧
    (forceReconnect
        { retryCount := 5, pendingRetry := false, isManualClose := false }).2 = false ∧
    (forceReconnect
        { retryCount := 5, pendingRetry := false, isManualClose := false }).1.retryCount
      = 5 := by
  decide

/-- C8 (amended): once the retry counter has reached `maxRetries`, a
close event changes nothing (in particular no retry timer is
scheduled) and a manual `reconnect()` is refused as well — it invokes
no connection attempt and leaves the counter unchanged; a manual
`reconnect()` attempts a connection and increments the counter exactly
while the counter is still below `maxRetries`; and a successful open
resets the counter and clears any pending timer. -/
theorem C8_retry_exhaustion_amended (s : RetryState) :
    (maxRetries ≤ s.retryCount → handleStatusChange s .closed = s) ∧
    (maxRetries ≤ s.retryCount →
        (forceReconnect s).2 = false ∧
        (forceReconnect s).1.retryCount = s.retryCount) ∧
    (s.retryCount < maxRetries →
        (forceReconnect s).2 = true ∧
        (forceReconnect s).1.retryCount = s.retryCount + 1) ∧
    ((handleStatusChange s .open_).retryCount = 0 ∧
      (handleStatusChange s .open_).pendingRetry = false) := by
  refine ⟨?_, ?_, ?_, rfl, rfl⟩
  · intro h
    unfold handleStatusChange
    rw [if_neg (fun hc => absurd hc.2 (Nat.not_lt.mpr h))]
  · intro h
    unfold forceReconnect
    dsimp only
    rw [if_neg (Nat.not_lt.mpr h)]
    exact ⟨rfl, rfl⟩
  · intro h
    unfold forceReconnect
    dsimp only
    rw [if_pos h]
    exact ⟨rfl, rfl⟩

/-- Witness for C8 at concrete inputs: the exhausted state refuses both
the automatic and the manual path, and a fresh state reconnects
manually with the counter incremented. -/
theorem C8_witness :
    (handleStatusChange
        { retryCount := 5, pendingRetry := false, isManualClose := false } .closed
      = { retryCount := 5, pendingRetry := false, isManualClose := false }) ∧
    ((forceReconnect
        { retryCount := 5, pendingRetry := false, isManualClose := false }).2 = false) ∧
    ((forceReconnect
        { retryCount := 0, pendingRetry := false, isManualClose := false }).2 = true ∧
      (forceReconnect
        { retryCount := 0, pendingRetry := false, isManualClose := false }).1.retryCount
        = 0 + 1) :=
  ⟨(C8_retry_exhaustion_amended
      { retryCount := 5, pendingRetry := false, isManualClose := false }).1 (by decide),
   ((C8_retry_exhaustion_amended
      { retryCount := 5, pendingRetry := false, isManualClose := false }).2.1 (by decide)).1,
   (C8_retry_exhaustion_amended
      { retryCount := 0, pendingRetry := false, isManualClose := false }).2.2.1 (by decide)⟩

/-- C9 counterexample: a JSON object whose `nodes` and `edges` are both
EMPTY arrays. The claim says the uploader must fail with a parse-error
status and skip the callback; the code's `!payload.nodes` truthiness
check accepts empty arrays, so the graph-loaded callback runs and the
backend sync is attempted. -/
theorem C9_counterexample :
    parseGraph (some (.obj [("nodes", .arr []), ("edges", .arr [])]))
      = [.graphLoadedCallback, .statusLoaded, .backendSync] ∧
    UploadStep.graphLoadedCallback
      ∈ parseGraph (some (.obj [("nodes", .arr []), ("edges", .arr [])])) := by
  decide

/-- C9 (amended): the uploader fails with a parse-error status and
without invoking the graph-loaded callback exactly when the text does
not parse as JSON or the parsed value's `nodes` or `edges` property is
falsy (absent, null, false, 0 or the empty string — an empty ARRAY is
truthy and accepted); otherwise the graph-loaded callback is invoked
before the backend sync is attempted. -/
theorem C9_uploader_parse_amended (parsed : Option JVal) :
    (parseGraph none = [.statusParseError]) ∧
    (∀ payload, parsed = some payload →
        (jsTruthy (jsField payload "nodes") = false ∨
          jsTruthy (jsField payload "edges") = false) →
        parseGraph parsed = [.statusParseError]) ∧
    (∀ payload, parsed = some payload →
        jsTruthy (jsField payload "nodes") = true →
        jsTruthy (jsField payload "edges") = true →
        parseGraph parsed = [.graphLoadedCallback, .statusLoaded, .backendSync]) := by
  refine ⟨rfl, ?_, ?_⟩
  · rintro payload rfl h
    show (if jsTruthy (jsField payload "nodes") = false ∨
          jsTruthy (jsField payload "edges") = false
        then [UploadStep.statusParseError]
        else [UploadStep.graphLoadedCallback, UploadStep.statusLoaded,
          UploadStep.backendSync])
      = [UploadStep.statusParseError]
    rw [if_pos h]
  · rintro payload rfl h1 h2
    show (if jsTruthy (jsField payload "nodes") = false ∨
          jsTruthy (jsField payload "edges") = false
        then [UploadStep.statusParseError]
        else [UploadStep.graphLoadedCallback, UploadStep.statusLoaded,
          UploadStep.backendSync])
      = [UploadStep.graphLoadedCallback, UploadStep.statusLoaded, UploadStep.backendSync]
    rw [if_neg ?_]
    rintro (hc | hc)
    · rw [h1] at hc
      exact Bool.noConfusion hc
    · rw [h2] at hc
      exact Bool.noConfusion hc

/-- Witness for C9 at concrete inputs: a payload with a null `nodes`
property fails with the parse-error status; a payload with non-empty
`nodes` and `edges` arrays runs the callback, sets the loaded status
and only then syncs the backend. -/
theorem C9_witness :
    parseGraph (some (.obj [("nodes", .null), ("edges", .arr [])]))
      = [.statusParseError] ∧
    parseGraph (some (.obj [("nodes", .arr [.obj [("id", .str "a")]]),
        ("edges", .arr [.obj []])]))
      = [.graphLoadedCallback, .statusLoaded, .backendSync] :=
  ⟨(C9_uploader_parse_amended
      (some (.obj [("nodes", .null), ("edges", .arr [])]))).2.1 _ rfl (by decide),
   (C9_uploader_parse_amended
      (some (.obj [("nodes", .arr [.obj [("id", .str "a")]]),
        ("edges", .arr [.obj []])]))).2.2 _ rfl (by decide) (by decide)⟩

/-- C10: when an `agent.message` event's payload is absent (or falsy)
or its `content` property is not a string, the dispatch layer emits no
action at all, so folding the dispatched actions through the reducer
leaves the application state unchanged — chat, logs and the
`isWaitingForAgent` flag included, whatever the payload's role. -/
theorem C10_agent_message_guard (event : AgentEvent) (genId : String) (s : AppState)
    (h : event.payload = none ∨
      isStringVal (event.payload.bind (fun p => jsField p "content")) = false) :
    handleAgentMessage event = [] ∧
    dispatchAll genId s (handleAgentMessage event) = s := by
  have hempty : handleAgentMessage event = [] := by
    unfold handleAgentMessage
    rcases h with hnone | hstr
    · rw [if_pos (Or.inl (by rw [hnone]; rfl))]
    · rw [if_pos (Or.inr hstr)]
  exact ⟨hempty, by rw [hempty]; rfl⟩

/-- Witness for C10 at a concrete input: an assistant-role payload whose
`content` is a number dispatches nothing and leaves the initial state
untouched. -/
theorem C10_witness :
    handleAgentMessage
        { id := "e1", type := "agent.message", createdAt := "2024-01-01"
          payload := some (.obj [("role", .str "assistant"), ("content", .num 3)])
          level := none, source := none }
      = [] ∧
    dispatchAll "g" initialAppState
        (handleAgentMessage
          { id := "e1", type := "agent.message", createdAt := "2024-01-01"
            payload := some (.obj [("role", .str "assistant"), ("content", .num 3)])
            level := none, source := none })
      = initialAppState :=
  C10_agent_message_guard
    { id := "e1", type := "agent.message", createdAt := "2024-01-01"
      payload := some (.obj [("role", .str "assistant"), ("content", .num 3)])
      level := none, source := none }
    "g" initialAppState (Or.inr (by decide))
